import Mathlib

/-!
Shallow embedding of the translation dispatch engine of the
zotero-arxiv-reader plugin — src/modules/translationService.ts and
src/modules/htmlTranslator.ts — together with theorems checking the
natural-language specification of the engine against the code.

Conventions of the embedding:
* JavaScript numbers used as rate limits are modelled by `JsNum`
  (a finite rational or one of NaN / +Infinity / -Infinity);
  millisecond timestamps (`Date.now()`) are natural numbers.
* Stateful code is modelled by explicit state passing; the cooperative
  concurrency of the JS event loop is modelled by atomic segments that
  run from one `await` to the next, interleaved by an explicit schedule.
* Fallible code returns `Except`; platform calls (`JSON.parse`,
  `Zotero.HTTP.request`) are abstracted by their observable outcomes,
  which are supplied as inputs.
-/

namespace ArxivReader

/-- a JavaScript number as used for the `rpm` and `temperature` fields:
either a finite rational or one of the non-finite values. -/
inductive JsNum where
  | fin (q : ℚ)
  | nan
  | posInf
  | negInf
deriving DecidableEq, Repr

/-- the JavaScript test `Number.isFinite(x)`. -/
def JsNum.isFinite : JsNum → Bool
  | JsNum.fin _ => true
  | _ => false

/-- the JavaScript comparison `x <= 0` (false on NaN). -/
def JsNum.leZero : JsNum → Bool
  | JsNum.fin q => decide (q ≤ 0)
  | JsNum.nan => false
  | JsNum.posInf => false
  | JsNum.negInf => true

/-- the JavaScript comparison `n >= x` for a list length `n` (false on
NaN, used for `recentRequests.length >= rpm`). -/
def JsNum.leNat : JsNum → ℕ → Bool
  | JsNum.fin q, n => decide (q ≤ (n : ℚ))
  | JsNum.nan, _ => false
  | JsNum.posInf, _ => false
  | JsNum.negInf, _ => true

/-- the JavaScript expression `x || 0` (NaN is falsy; `0 || 0` is `0`). -/
def JsNum.orZero : JsNum → JsNum
  | JsNum.nan => JsNum.fin 0
  | JsNum.fin q => JsNum.fin q
  | x => x

/-! ## Rate limiter (translationService.ts lines 37, 79-103)

The per-provider bucket is an ordered list of recorded request
timestamps.  `waitForRateLimit` runs synchronously up to its only
suspension point, the `await sleep(waitMs)`; after the sleep it pushes
`Date.now()` without re-checking the bucket.  Buckets of distinct
providers are independent, so the model covers a single provider. -/

/-- the sliding window constant `windowMs = 60_000` ms. -/
def windowMs : ℕ := 60000

/-- the `while (recentRequests.length > 0 && now - recentRequests[0] >=
windowMs) recentRequests.shift()` loop (lines 93-95); it only ever
inspects the head of the bucket. -/
def pruneBucket (now : ℕ) : List ℕ → List ℕ
  | [] => []
  | t :: rest => if windowMs ≤ now - t then pruneBucket now rest else t :: rest

/-- outcome of one synchronous run of `waitForRateLimit` up to the
suspension point. -/
inductive AcquireStep where
  | noLimit                                 -- the guard returned immediately
  | pushed (bucket : List ℕ)                -- no wait needed: now was recorded
  | sleepUntil (bucket : List ℕ) (wake : ℕ) -- the caller suspended until wake
deriving DecidableEq, Repr

/-- `waitForRateLimit` (lines 88-103) up to the suspension point: the
non-positive / non-finite guard, the prune loop, the size check and the
wait computation.  A caller that does not need to wait pushes `now`
immediately; a caller that must wait suspends until `now + waitMs` and
pushes its own wake time afterwards (`recentRequests.push(Date.now())`
runs after the sleep with no re-check of the bucket). -/
def waitForRateLimitStep (rpm : JsNum) (bucket : List ℕ) (now : ℕ) : AcquireStep :=
  if rpm.isFinite = false ∨ rpm.leZero = true then AcquireStep.noLimit
  else
    let b := pruneBucket now bucket
    if rpm.leNat b.length = true then
      match b with
      | [] => AcquireStep.pushed (b ++ [now])  -- unreachable when rpm > 0
      | oldest :: _ =>
        let waitMs : ℕ := windowMs - (now - oldest)
        if 0 < waitMs then AcquireStep.sleepUntil b (now + waitMs)
        else AcquireStep.pushed (b ++ [now])
    else AcquireStep.pushed (b ++ [now])

/-- the rate-limiter state for one provider: the bucket, the wake
deadlines of suspended callers, and a clock used to force times to be
nondecreasing along a trace (as `Date.now()` is). -/
structure RLState where
  bucket : List ℕ
  sleepers : List ℕ
  clock : ℕ
deriving DecidableEq, Repr

/-- an atomic event of the cooperative interleaving: a caller entering
`waitForRateLimit` at a given time, or a suspended caller resuming
(after its deadline) and recording its current time. -/
inductive RLAct where
  | arrive (now : ℕ)
  | wake (now : ℕ)
deriving DecidableEq, Repr

def rlInit : RLState := ⟨[], [], 0⟩

/-- remove the first suspended caller whose wake deadline is ≤ now;
`none` if no sleeper may resume yet. -/
def takeSleeper (now : ℕ) : List ℕ → Option (List ℕ)
  | [] => none
  | w :: rest =>
    if w ≤ now then some rest
    else Option.map (fun l => w :: l) (takeSleeper now rest)

/-- one atomic event; `none` marks an invalid event (time running
backwards, or a wake with no due sleeper). -/
def rlStep (rpm : JsNum) (s : RLState) : RLAct → Option RLState
  | RLAct.arrive now =>
    if now < s.clock then none
    else some (match waitForRateLimitStep rpm s.bucket now with
      | AcquireStep.noLimit => { s with clock := now }
      | AcquireStep.pushed b => { bucket := b, sleepers := s.sleepers, clock := now }
      | AcquireStep.sleepUntil b w =>
        { bucket := b, sleepers := s.sleepers ++ [w], clock := now })
  | RLAct.wake now =>
    if now < s.clock then none
    else Option.map (fun rest => { bucket := s.bucket ++ [now], sleepers := rest, clock := now })
      (takeSleeper now s.sleepers)

/-- run a trace of atomic events against the limiter. -/
def rlRun (rpm : JsNum) : RLState → List RLAct → Option RLState
  | s, [] => some s
  | s, a :: rest =>
    match rlStep rpm s a with
    | none => none
    | some s1 => rlRun rpm s1 rest

/-- number of recorded timestamps younger than 60 000 ms at instant t. -/
def youngCount (t : ℕ) (b : List ℕ) : ℕ :=
  (b.filter (fun e => t - e < windowMs)).length

/-- C1: the claimed invariant fails on the code.  With `rpm = 1` and three
callers racing at t = 0: the first records timestamp 0; the second and the
third both see the full bucket and suspend until t = 60 000; both then
record their wake time 60 000 without re-evaluating the bucket (the code
has no re-check loop after the sleep).  At instant 60 000 the bucket is
[0, 60000, 60000] and holds 2 timestamps younger than 60 000 ms, which
exceeds rpm = 1. -/
theorem rateLimiter_window_overflow_on_race :
    rlRun (JsNum.fin 1) rlInit
        [RLAct.arrive 0, RLAct.arrive 0, RLAct.arrive 0,
         RLAct.wake 60000, RLAct.wake 60000]
      = some ⟨[0, 60000, 60000], [], 60000⟩
    ∧ 1 < youngCount 60000 [0, 60000, 60000] := by
  decide

/-- C8: when `rpm` is not a positive finite number (≤ 0, NaN or infinite),
`waitForRateLimit` returns at its first line: the caller is not delayed
(no sleeper is registered) and the bucket is not modified. -/
theorem acquire_no_limit_returns_immediately (rpm : JsNum)
    (h : ∀ q : ℚ, rpm = JsNum.fin q → q ≤ 0) :
    (∀ bucket now, waitForRateLimitStep rpm bucket now = AcquireStep.noLimit)
    ∧ ∀ s : RLState, ∀ now, s.clock ≤ now →
        rlStep rpm s (RLAct.arrive now) = some { s with clock := now } := by
  have hg : rpm.isFinite = false ∨ rpm.leZero = true := by
    cases rpm with
    | fin q =>
      right
      simpa [JsNum.leZero] using h q rfl
    | nan => left; rfl
    | posInf => left; rfl
    | negInf => left; rfl
  have hstep : ∀ bucket now, waitForRateLimitStep rpm bucket now = AcquireStep.noLimit := by
    intro bucket now
    unfold waitForRateLimitStep
    rw [if_pos hg]
  refine ⟨hstep, fun s now hnow => ?_⟩
  simp [rlStep, hstep, Nat.not_lt.mpr hnow]

/-- witness for C8 at a concrete non-finite rpm and a nonempty bucket. -/
theorem acquire_no_limit_returns_immediately_witness :
    waitForRateLimitStep JsNum.nan [5] 10 = AcquireStep.noLimit :=
  (acquire_no_limit_returns_immediately JsNum.nan
    (fun _ hq => JsNum.noConfusion hq)).1 [5] 10

/-! ## Provider registry (translationService.ts lines 39-69, 139-211)

`getPref` values are abstracted by a `Prefs` record.  A raw preference
string that goes through `JSON.parse` is abstracted by its observable
parse outcome `RawJson`: the empty string (falsy, line 40), a parse
error, a parse to a non-array value, or an array of items.  A raw
provider entry carries the fields after JavaScript string/number
coercion (`String(x)` / `Number(x)`); an absent field is `none`. -/

/-- observable outcome of `JSON.parse` on a raw preference string, as
consumed by `parseJsonArray` (lines 39-47). -/
inductive RawJson (α : Type) where
  | empty          -- raw string "" (falsy)
  | malformed      -- JSON.parse threw
  | notArray       -- parsed, but not an array
  | arr (items : List α)
deriving DecidableEq, Repr

/-- `parseJsonArray` (lines 39-47): the parsed array, or the fallback. -/
def parseJsonArray {α : Type} (raw : RawJson α) (fallback : List α) : List α :=
  match raw with
  | RawJson.arr xs => xs
  | _ => fallback

/-- the JavaScript whitespace characters trimmed / matched here
(the ASCII part of `\s` and `String.prototype.trim`). -/
def isJsSpace (c : Char) : Bool :=
  c = ' ' ∨ c = '\t' ∨ c = '\n' ∨ c = '\r' ∨ c.toNat = 12 ∨ c.toNat = 11

/-- `String.prototype.trim()`. -/
def jsTrim (s : String) : String :=
  String.mk (((s.data.dropWhile isJsSpace).reverse.dropWhile isJsSpace).reverse)

/-- a validated provider (the `TranslateProvider` record, lines 14-22). -/
structure Provider where
  id : String
  name : String
  apiBaseUrl : String
  apiKey : String
  model : String
  rpm : JsNum
  temperature : Option JsNum
deriving DecidableEq, Repr

/-- a raw provider entry from the `translationProviders` JSON: each field
after JavaScript coercion, `none` when absent.  `rpm` and `temperature`
carry the value of `Number(x)` on the raw field. -/
structure RawProvider where
  id : Option String
  name : Option String
  apiBaseUrl : Option String
  apiKey : Option String
  model : Option String
  rpm : Option JsNum
  temperature : Option JsNum
deriving DecidableEq, Repr

/-- an item of the parsed provider array: a non-object (dropped by the
`item && typeof item === "object"` filter, line 52) or an object. -/
inductive RawItem where
  | nonObj
  | obj (r : RawProvider)
deriving DecidableEq, Repr

/-- the `.map` body of `parseProviders` (lines 53-67): coerce every field
to a trimmed string, `rpm` to `Number(provider.rpm ?? 0)` and
`temperature` to a number defaulting to 0. -/
def coerceRawProvider (r : RawProvider) : Provider :=
  { id := jsTrim (r.id.getD "")
    name := jsTrim (r.name.getD "")
    apiBaseUrl := jsTrim (r.apiBaseUrl.getD "")
    apiKey := jsTrim (r.apiKey.getD "")
    model := jsTrim (r.model.getD "")
    rpm := r.rpm.getD (JsNum.fin 0)
    temperature := some (r.temperature.getD (JsNum.fin 0)) }

/-- `parseProviders` (lines 49-69): parse the array, keep objects, coerce
the fields, and drop every entry whose trimmed id, name or apiBaseUrl is
empty. -/
def parseProviders (raw : RawJson RawItem) : List Provider :=
  ((parseJsonArray raw []).filterMap (fun it =>
      match it with
      | RawItem.nonObj => none
      | RawItem.obj r => some (coerceRawProvider r))).filter
    (fun p => p.id != "" && p.name != "" && p.apiBaseUrl != "")

/-- `parseSelections` (lines 128-131): parsed id list with empty strings
dropped (`String(item)` is the identity in the model, the items being
strings already). -/
def parseSelections (raw : RawJson String) : List String :=
  (parseJsonArray raw []).filter (fun s => decide (0 < s.length))

/-- the preference state read through `getPref`, after the `|| ""` /
`Boolean(...)` coercions at the call sites.  `translationRPM` carries the
number produced by the typeof dance of lines 144-150. -/
structure Prefs where
  translationProviders : RawJson RawItem
  translationProviderSelection : String
  translationParallelEnabled : Bool
  translationParallelProviders : RawJson String
  translationApiBaseUrl : String
  translationApiKey : String
  translationModel : String
  translationRPM : JsNum
deriving DecidableEq, Repr

/-- `getLegacyProvider` (lines 139-160). -/
def getLegacyProvider (p : Prefs) : Provider :=
  { id := "legacy"
    name := "Legacy"
    apiBaseUrl :=
      if p.translationApiBaseUrl = "" then "https://api.openai.com/v1"
      else p.translationApiBaseUrl
    apiKey := p.translationApiKey
    model := if p.translationModel = "" then "gpt-4o-mini" else p.translationModel
    rpm := p.translationRPM
    temperature := some (JsNum.fin (1 / 5)) }

/-- `getAllProviders` (lines 162-167). -/
def getAllProviders (p : Prefs) : List Provider :=
  let providers := parseProviders p.translationProviders
  if providers = [] then [getLegacyProvider p] else providers

/-- `resolveSelectedProvider` (lines 169-175): the provider whose id
matches the serial selection preference, else the first registered
provider (`providers[0]`; `getAllProviders` never returns an empty list,
so the `headD` default is never used). -/
def resolveSelectedProvider (p : Prefs) : Provider :=
  match (getAllProviders p).find? (fun pr => pr.id == p.translationProviderSelection) with
  | some pr => pr
  | none => (getAllProviders p).headD (getLegacyProvider p)

/-- `getParallelProviders` (lines 195-211); the two local `const`s of the
code are inlined so that the branch structure is plain. -/
def getParallelProviders (p : Prefs) : List Provider :=
  if p.translationParallelEnabled = false then [resolveSelectedProvider p]
  else if parseSelections p.translationParallelProviders = [] then
    [resolveSelectedProvider p]
  else if (getAllProviders p).filter
      (fun pr => (parseSelections p.translationParallelProviders).contains pr.id) = [] then
    [resolveSelectedProvider p]
  else
    (getAllProviders p).filter
      (fun pr => (parseSelections p.translationParallelProviders).contains pr.id)

/-- C10: for every preference state — including malformed or non-array
provider JSON, which `parseJsonArray` absorbs into its fallback — the
embedding of `getParallelProviders` is a total function (the code throws
nowhere on this path) and returns a non-empty list; when no valid
provider is configured it returns exactly the singleton legacy provider
built from the individual preferences. -/
theorem getParallelProviders_never_empty (p : Prefs) :
    getParallelProviders p ≠ []
    ∧ (parseProviders p.translationProviders = [] →
        getParallelProviders p = [getLegacyProvider p]) := by
  have hres_of : getAllProviders p = [getLegacyProvider p] →
      resolveSelectedProvider p = getLegacyProvider p := by
    intro hall
    unfold resolveSelectedProvider
    rw [hall]
    by_cases hid : ((getLegacyProvider p).id == p.translationProviderSelection) = true
    · simp [List.find?, hid]
    · simp [List.find?, hid]
  constructor
  · unfold getParallelProviders
    split
    · simp
    · split
      · simp
      · split
        · simp
        · next h => exact h
  · intro hp
    have hall : getAllProviders p = [getLegacyProvider p] := by
      unfold getAllProviders
      simp [hp]
    have hres := hres_of hall
    unfold getParallelProviders
    split
    · rw [hres]
    · split
      · rw [hres]
      · split
        · rw [hres]
        · next hne =>
          rw [hall] at hne ⊢
          by_cases hc : (getLegacyProvider p).id ∈ parseSelections p.translationParallelProviders
          · simp [List.filter, hc]
          · exfalso
            apply hne
            simp [List.filter, hc]

/-- witness for C10 at a preference state whose provider JSON is
malformed: the result is the legacy provider alone. -/
theorem getParallelProviders_never_empty_witness :
    getParallelProviders ⟨RawJson.malformed, "", false, RawJson.empty, "", "", "", JsNum.nan⟩
      = [getLegacyProvider ⟨RawJson.malformed, "", false, RawJson.empty, "", "", "", JsNum.nan⟩] :=
  (getParallelProviders_never_empty
    ⟨RawJson.malformed, "", false, RawJson.empty, "", "", "", JsNum.nan⟩).2 (by decide)

/-- C9 counterexample data: two well-formed raw providers. -/
def c9RawP1 : RawProvider :=
  ⟨some "p1", some "P1", some "https://a", some "k", some "m", some (JsNum.fin 1), none⟩

def c9RawP2 : RawProvider :=
  ⟨some "p2", some "P2", some "https://b", some "k", some "m", some (JsNum.fin 1), none⟩

/-- C9 counterexample preference state: providers [p1, p2] registered in
that order, serial selection preference "p2", parallel mode enabled with
an empty parallel selection list. -/
def c9Prefs : Prefs :=
  ⟨RawJson.arr [RawItem.obj c9RawP1, RawItem.obj c9RawP2], "p2", true,
    RawJson.arr [], "", "", "", JsNum.fin 0⟩

/-- C9 fails on the code: with providers [p1, p2], the serial selection
preference naming p2, and an empty parallel selection list, the resolved
participating set is [p2] — the serially selected provider — and not the
first registered provider p1 as the claim states. -/
theorem parallel_fallback_is_selected_not_first :
    getParallelProviders c9Prefs = [coerceRawProvider c9RawP2]
    ∧ (getAllProviders c9Prefs).head? = some (coerceRawProvider c9RawP1)
    ∧ coerceRawProvider c9RawP2 ≠ coerceRawProvider c9RawP1 := by
  decide

/-- C9 as amended: provider resolution drops exactly the raw entries
missing a non-empty (trimmed) id, name or apiBaseUrl; and when the
parallel selection list is empty or references no known provider id, the
participating set falls back to the singleton of the serially resolved
provider — which is the provider named by the serial selection
preference when one matches, otherwise the first registered provider. -/
theorem provider_resolution_and_fallback :
    (∀ raw : RawJson RawItem, ∀ pr ∈ parseProviders raw,
        pr.id ≠ "" ∧ pr.name ≠ "" ∧ pr.apiBaseUrl ≠ "")
    ∧ (∀ items : List RawItem, ∀ r : RawProvider, RawItem.obj r ∈ items →
        (coerceRawProvider r).id ≠ "" → (coerceRawProvider r).name ≠ "" →
        (coerceRawProvider r).apiBaseUrl ≠ "" →
        coerceRawProvider r ∈ parseProviders (RawJson.arr items))
    ∧ ∀ p : Prefs,
        (parseSelections p.translationParallelProviders = [] →
            getParallelProviders p = [resolveSelectedProvider p])
        ∧ ((∀ pr ∈ getAllProviders p,
              (parseSelections p.translationParallelProviders).contains pr.id = false) →
            getParallelProviders p = [resolveSelectedProvider p])
        ∧ ((∀ pr ∈ getAllProviders p, pr.id ≠ p.translationProviderSelection) →
            resolveSelectedProvider p = (getAllProviders p).headD (getLegacyProvider p)) := by
  refine ⟨?_, ?_, ?_⟩
  · intro raw pr hpr
    unfold parseProviders at hpr
    rw [List.mem_filter] at hpr
    have hcond := hpr.2
    simpa [Bool.and_eq_true, bne_iff_ne, and_assoc] using hcond
  · intro items r hmem h1 h2 h3
    unfold parseProviders
    apply List.mem_filter.mpr
    refine ⟨List.mem_filterMap.mpr ⟨RawItem.obj r, ?_, rfl⟩, ?_⟩
    · simpa [parseJsonArray] using hmem
    · simp [Bool.and_eq_true, bne_iff_ne, h1, h2, h3]
  · intro p
    refine ⟨fun h => ?_, fun hall2 => ?_, fun hnone => ?_⟩
    · by_cases he : p.translationParallelEnabled = false <;>
        simp [getParallelProviders, he, h]
    · have hfilter : (getAllProviders p).filter
          (fun pr => (parseSelections p.translationParallelProviders).contains pr.id) = [] := by
        apply List.filter_eq_nil_iff.mpr
        intro a ha
        rw [hall2 a ha]
        simp
      unfold getParallelProviders
      by_cases he : p.translationParallelEnabled = false
      · rw [if_pos he]
      · rw [if_neg he]
        by_cases hs : parseSelections p.translationParallelProviders = []
        · rw [if_pos hs]
        · rw [if_neg hs, if_pos hfilter]
    · have hfind : (getAllProviders p).find?
          (fun pr => pr.id == p.translationProviderSelection) = none := by
        apply List.find?_eq_none.mpr
        intro x hx
        simpa using hnone x hx
      unfold resolveSelectedProvider
      rw [hfind]

/-- witness for C9's amended statement at the counterexample preference
state: the empty parallel selection falls back to the serially resolved
provider. -/
theorem provider_resolution_and_fallback_witness :
    getParallelProviders c9Prefs = [resolveSelectedProvider c9Prefs] :=
  (provider_resolution_and_fallback.2.2 c9Prefs).1 (by decide)

/-! ## Translation client (translationService.ts lines 177-193, 250-274,
336-394)

An HTTP response is abstracted by its observable fields: the status, the
response text, the status text, and the outcome of `JSON.parse` on the
text (`none` for an empty, unparsable or otherwise falsy body, matching
lines 369-375).  Of the parsed body the code consults only
`choices[0].message.content`, `choices[0].text` and `error.message`;
`RespData` records exactly those.  The per-attempt responses of
`Zotero.HTTP.request` are supplied as a stream indexed by attempt
number, and the unbounded `while (true)` loop is run on explicit fuel:
an attempt budget the loop may exhaust without ever failing. -/

/-- a JSON value at one of the consulted positions: a string, `null`, or
any non-string value. `none` at an `Option JVal` position means the
field is absent (JavaScript `undefined`). -/
inductive JVal where
  | jstr (s : String)
  | jnull
  | jother
deriving DecidableEq, Repr

/-- JavaScript nullish test (`undefined` or `null`), deciding the `??`
chain of line 252. -/
def nullish : Option JVal → Bool
  | none => true
  | some JVal.jnull => true
  | some _ => false

/-- the consulted parts of `choices[0]`: the value reached by
`.message?.content` (absent when `message` or `content` is) and the
value of `.text`. -/
structure RChoice where
  content : Option JVal
  text : Option JVal
deriving DecidableEq, Repr

/-- the consulted parts of a parsed response body: `choices[0]` (absent
when `choices` is missing or empty) and `error.message` coerced to a
string (`none` when absent; `""` is falsy at both use sites). -/
structure RespData where
  choice0 : Option RChoice
  errMsg : Option String
deriving DecidableEq, Repr

/-- the message of the `throw` branches of `extractResponseContent`
(lines 253-258): `error.message` when truthy, else the generic
empty-content message. -/
def emptyContentMessage (d : RespData) : String :=
  match d.errMsg with
  | some m => if m = "" then "翻译接口返回内容为空。" else m
  | none => "翻译接口返回内容为空。"

/-- `extractResponseContent` (lines 250-261): select
`choices[0].message.content ?? choices[0].text ?? ""` by nullish
coalescing, succeed on a non-empty string, and otherwise fail with
`emptyContentMessage`. -/
def extractResponseContent (d : RespData) : Except String String :=
  let contentV : Option JVal := d.choice0.bind (fun c => c.content)
  let textV : Option JVal := d.choice0.bind (fun c => c.text)
  let chosen : JVal :=
    if nullish contentV = false then contentV.getD JVal.jnull
    else if nullish textV = false then textV.getD JVal.jnull
    else JVal.jstr ""
  match chosen with
  | JVal.jstr s => if s = "" then Except.error (emptyContentMessage d) else Except.ok s
  | _ => Except.error (emptyContentMessage d)

/-- ASCII lower-casing for the case-insensitive regex test. -/
def asciiLowerN (c : Char) : ℕ :=
  if 65 ≤ c.toNat ∧ c.toNat ≤ 90 then c.toNat + 32 else c.toNat

/-- case-insensitive character comparison (the `/i` flag; the patterns
are ASCII). -/
def charCI (a b : Char) : Bool := asciiLowerN a = asciiLowerN b

/-- match a literal pattern case-insensitively at the head, returning the
rest on success. -/
def matchLitCI : List Char → List Char → Option (List Char)
  | [], cs => some cs
  | _ :: _, [] => none
  | p :: ps, c :: cs => if charCI p c then matchLitCI ps cs else none

/-- `\s*`: drop the (determined) maximal whitespace run; the following
literal starts with a non-space character, so greediness is exact. -/
def skipWs (cs : List Char) : List Char := cs.dropWhile isJsSpace

/-- `\s+`: at least one whitespace character, then the maximal run. -/
def matchWsPlus : List Char → Option (List Char)
  | [] => none
  | c :: cs => if isJsSpace c then some (skipWs cs) else none

/-- one alternative of `/rate\s*limit|too\s+many\s+requests|rpm/i`
anchored at the head of the character list. -/
def matchRateAlt (cs : List Char) : Bool :=
  (match matchLitCI "rate".data cs with
    | some rest => (matchLitCI "limit".data (skipWs rest)).isSome
    | none => false)
  || (match matchLitCI "too".data cs with
    | some rest =>
      match matchWsPlus rest with
      | some rest2 =>
        match matchLitCI "many".data rest2 with
        | some rest3 =>
          match matchWsPlus rest3 with
          | some rest4 => (matchLitCI "requests".data rest4).isSome
          | none => false
        | none => false
      | none => false
    | none => false)
  || (matchLitCI "rpm".data cs).isSome

/-- the unanchored test `/rate\s*limit|too\s+many\s+requests|rpm/i.test`
over every suffix of the message. -/
def rlScan : List Char → Bool
  | [] => false
  | c :: rest => matchRateAlt (c :: rest) || rlScan rest

/-- `regex.test(message)` for the rate-limit regex of line 273. -/
def rateLimitTest (s : String) : Bool := rlScan s.data

/-- `isRateLimitError` (lines 263-274): status 429, or the regex test on
`error.message || responseText` when that is non-empty. -/
def isRateLimitError (status : ℕ) (data : Option RespData) (responseText : String) : Bool :=
  if status = 429 then true
  else
    let message :=
      match data with
      | some d =>
        match d.errMsg with
        | some m => if m = "" then responseText else m
        | none => responseText
      | none => responseText
    if message = "" then false else rateLimitTest message

/-- an HTTP response as observed by the loop body: status, parse outcome
of the body, raw text, status text. -/
structure JResp where
  status : ℕ
  data : Option RespData
  responseText : String
  statusText : String
deriving DecidableEq, Repr

/-- the fatal branch message (lines 389-392): `data?.error?.message ||
"HTTP {status}: {statusText || fallback}"` (written with `++`). -/
def httpErrorMessage (r : JResp) : String :=
  match r.data with
  | some d =>
    match d.errMsg with
    | some m =>
      if m = "" then
        "HTTP " ++ toString r.status ++ ": " ++
          (if r.statusText = "" then "请求失败" else r.statusText)
      else m
    | none =>
      "HTTP " ++ toString r.status ++ ": " ++
        (if r.statusText = "" then "请求失败" else r.statusText)
  | none =>
    "HTTP " ++ toString r.status ++ ": " ++
      (if r.statusText = "" then "请求失败" else r.statusText)

/-- outcome of a fuelled run of the request loop. -/
inductive LoopRes where
  | ok (s : String)
  | err (m : String)
  | fuelOut
deriving DecidableEq, Repr

/-- trace of a fuelled run: the outcome, the number of requests sent (all
with the identical `body` built once before the loop), and the backoff
sleeps taken, in order. -/
structure ReqTrace where
  res : LoopRes
  requests : ℕ
  sleeps : List ℕ
deriving DecidableEq, Repr

/-- the `while (true)` request loop of `translateTextWithProvider`
(lines 358-393): send, then — 2xx: parse-or-fail and extract; rate-limit
signal: sleep 60 000 ms and loop; otherwise: fail with
`httpErrorMessage`.  `resp i` is the response to attempt `i`; the fuel
bounds the number of attempts observed. -/
def requestLoop (resp : ℕ → JResp) : ℕ → ℕ → ReqTrace
  | 0, _ => ⟨LoopRes.fuelOut, 0, []⟩
  | fuel + 1, i =>
    if 200 ≤ (resp i).status ∧ (resp i).status < 300 then
      match (resp i).data with
      | none => ⟨LoopRes.err "翻译接口返回为空。", 1, []⟩
      | some d =>
        match extractResponseContent d with
        | Except.ok s => ⟨LoopRes.ok s, 1, []⟩
        | Except.error m => ⟨LoopRes.err m, 1, []⟩
    else if isRateLimitError (resp i).status (resp i).data (resp i).responseText then
      ⟨(requestLoop resp fuel (i + 1)).res,
        (requestLoop resp fuel (i + 1)).requests + 1,
        60000 :: (requestLoop resp fuel (i + 1)).sleeps⟩
    else ⟨LoopRes.err (httpErrorMessage (resp i)), 1, []⟩

/-- the validated provider of `normalizeProvider`. -/
structure NormalizedProvider where
  baseUrl : String
  apiKey : String
  model : String
  rpm : JsNum
  id : String
  name : String
  temperature : JsNum
deriving DecidableEq, Repr

/-- `replace(/\/+$/, "")` of line 178. -/
def dropTrailingSlashes (s : String) : String :=
  String.mk ((s.data.reverse.dropWhile (fun c => c = '/')).reverse)

/-- `normalizeProvider` (lines 177-193): strip trailing slashes from the
base URL and fail when the API key is empty, before any request is
built. -/
def normalizeProvider (p : Provider) : Except String NormalizedProvider :=
  let baseUrl := dropTrailingSlashes p.apiBaseUrl
  if p.apiKey = "" then Except.error "translationApiKey 未配置。"
  else Except.ok
    { baseUrl := baseUrl
      apiKey := p.apiKey
      model := if p.model = "" then "gpt-4o-mini" else p.model
      rpm := p.rpm.orZero
      id := if p.id = "" then "unknown" else p.id
      name := if p.name = "" then (if p.id = "" then "unknown" else p.id) else p.name
      temperature := p.temperature.getD (JsNum.fin (1 / 5)) }

/-- `translateTextWithProvider` (lines 336-394): normalize the provider
(throwing on a missing API key before the URL, body or any request is
formed), then run the request loop.  The prompt selection and message
building (lines 342-356) only affect the request body, which the model
does not inspect; the body is built once before the loop, so every
attempt re-sends the identical request. -/
def translateTextWithProvider (p : Provider) (resp : ℕ → JResp) (fuel : ℕ) : ReqTrace :=
  match normalizeProvider p with
  | Except.error m => ⟨LoopRes.err m, 0, []⟩
  | Except.ok _ => requestLoop resp fuel 0

/-- C5 fails as stated: classification is only consulted for non-2xx
responses.  A status-200 response whose text is "rate limit" is
classified as a rate-limit signal by the code's own `isRateLimitError`,
yet the call takes the 2xx path, fails to parse the body and throws —
no sleep, no retry. -/
theorem rateLimit_text_on_2xx_still_fails :
    isRateLimitError 200 none "rate limit" = true
    ∧ requestLoop (fun _ => ⟨200, none, "rate limit", ""⟩) 1 0
        = ⟨LoopRes.err "翻译接口返回为空。", 1, []⟩ := by
  decide

/-- C5 as amended: for every response with status outside the 2xx range
that is classified as a rate-limit signal (HTTP 429, or the error
message / response text matching the rate-limit patterns
case-insensitively), the loop sleeps a fixed 60 000 ms and re-sends the
identical request; for any number n of consecutive such responses the
loop makes n attempts, sleeps 60 000 ms after each, and never returns an
error — the retry has no give-up ceiling. -/
theorem rateLimited_retries_never_fail (resp : ℕ → JResp) (n j : ℕ)
    (h : ∀ i, i < n →
        ¬(200 ≤ (resp (j + i)).status ∧ (resp (j + i)).status < 300)
        ∧ isRateLimitError (resp (j + i)).status (resp (j + i)).data
            (resp (j + i)).responseText = true) :
    requestLoop resp n j = ⟨LoopRes.fuelOut, n, List.replicate n 60000⟩ := by
  induction n generalizing j with
  | zero => rfl
  | succ n ih =>
    have h0 := h 0 (Nat.succ_pos n)
    rw [Nat.add_zero] at h0
    have hrec : requestLoop resp n (j + 1)
        = ⟨LoopRes.fuelOut, n, List.replicate n 60000⟩ := by
      apply ih
      intro i hi
      have e : j + 1 + i = j + (i + 1) := by omega
      rw [e]
      exact h (i + 1) (by omega)
    simp only [requestLoop]
    rw [if_neg h0.1, if_pos h0.2, hrec]
    simp [List.replicate_succ]

/-- witness for C5's amended statement: two consecutive 429 responses
consume the whole attempt budget with two sends and two 60 000 ms
sleeps, and no error is raised. -/
theorem rateLimited_retries_never_fail_witness :
    requestLoop (fun _ => ⟨429, none, "", ""⟩) 2 0
      = ⟨LoopRes.fuelOut, 2, List.replicate 2 60000⟩ :=
  rateLimited_retries_never_fail (fun _ => ⟨429, none, "", ""⟩) 2 0
    (fun _ _ => ⟨show ¬(200 ≤ (429 : ℕ) ∧ (429 : ℕ) < 300) by decide,
      show isRateLimitError 429 none "" = true by decide⟩)

/-- C6: a provider with an empty API key makes `translateTextWithProvider`
fail at `normalizeProvider` with the missing-key configuration error:
zero requests are sent and zero backoff sleeps are taken — the failure
precedes the loop entirely. -/
theorem emptyApiKey_fails_before_any_request (p : Provider) (resp : ℕ → JResp) (fuel : ℕ)
    (h : p.apiKey = "") :
    translateTextWithProvider p resp fuel
      = ⟨LoopRes.err "translationApiKey 未配置。", 0, []⟩ := by
  unfold translateTextWithProvider normalizeProvider
  simp [h]

/-- witness for C6 at a concrete provider with an empty key and a server
that would answer 200. -/
theorem emptyApiKey_fails_before_any_request_witness :
    translateTextWithProvider ⟨"x", "X", "https://a", "", "m", JsNum.fin 1, none⟩
        (fun _ => ⟨200, none, "", ""⟩) 5
      = ⟨LoopRes.err "translationApiKey 未配置。", 0, []⟩ :=
  emptyApiKey_fails_before_any_request
    ⟨"x", "X", "https://a", "", "m", JsNum.fin 1, none⟩
    (fun _ => ⟨200, none, "", ""⟩) 5 rfl

/-- C7 counterexample data: `choices[0].message.content` present but the
empty string, `choices[0].text` a non-empty string. -/
def c7Data : RespData := ⟨some ⟨some (JVal.jstr ""), some (JVal.jstr "hello")⟩, none⟩

/-- C7 fails as stated: `??` only falls through on null/undefined, so an
empty-string `content` blocks the fallback — the body holds the
non-empty string "hello" at `choices[0].text`, yet the call fails with
the generic empty-content error instead of returning it. -/
theorem empty_content_blocks_text_fallback :
    extractResponseContent c7Data = Except.error "翻译接口返回内容为空。"
    ∧ c7Data.choice0.bind (fun c => c.text) = some (JVal.jstr "hello")
    ∧ "hello" ≠ "" :=
  ⟨rfl, rfl, by decide⟩

/-- C7 as amended: on a parsed 2xx body the client returns
`choices[0].message.content` when it is a non-empty string; it falls
back to `choices[0].text` only when `content` is null or absent; when
the value selected by this nullish chain is not a non-empty string the
call fails, with the body's `error.message` when that is a non-empty
string and the generic empty-content message otherwise. -/
theorem extractResponseContent_characterization (d : RespData) :
    (∀ s, s ≠ "" → d.choice0.bind (fun c => c.content) = some (JVal.jstr s) →
        extractResponseContent d = Except.ok s)
    ∧ (∀ s, s ≠ "" → nullish (d.choice0.bind (fun c => c.content)) = true →
        d.choice0.bind (fun c => c.text) = some (JVal.jstr s) →
        extractResponseContent d = Except.ok s)
    ∧ (d.choice0.bind (fun c => c.content) = some (JVal.jstr "") →
        extractResponseContent d = Except.error (emptyContentMessage d))
    ∧ (d.choice0.bind (fun c => c.content) = some JVal.jother →
        extractResponseContent d = Except.error (emptyContentMessage d))
    ∧ (nullish (d.choice0.bind (fun c => c.content)) = true →
        (nullish (d.choice0.bind (fun c => c.text)) = true
          ∨ d.choice0.bind (fun c => c.text) = some (JVal.jstr "")
          ∨ d.choice0.bind (fun c => c.text) = some JVal.jother) →
        extractResponseContent d = Except.error (emptyContentMessage d))
    ∧ (∀ m, m ≠ "" → d.errMsg = some m → emptyContentMessage d = m)
    ∧ ((d.errMsg = none ∨ d.errMsg = some "") →
        emptyContentMessage d = "翻译接口返回内容为空。") := by
  refine ⟨?_, ?_, ?_, ?_, ?_, ?_, ?_⟩
  · intro s hs hc
    simp [extractResponseContent, hc, nullish, hs]
  · intro s hs hn ht
    simp only [extractResponseContent]
    rw [hn, ht]
    simp [nullish, hs]
  · intro hc
    simp [extractResponseContent, hc, nullish]
  · intro hc
    simp [extractResponseContent, hc, nullish]
  · intro hn hcases
    simp only [extractResponseContent]
    rw [hn]
    rcases hcases with ht | ht | ht <;> rw [ht] <;> simp [nullish]
  · intro m hm hme
    simp [emptyContentMessage, hme, hm]
  · intro hme
    rcases hme with hme | hme <;> simp [emptyContentMessage, hme]

/-- witness for C7's amended statement: an absent `content` falls back to
a non-empty `text`, which is returned. -/
theorem extractResponseContent_characterization_witness :
    extractResponseContent ⟨some ⟨none, some (JVal.jstr "hi")⟩, none⟩ = Except.ok "hi" :=
  (extractResponseContent_characterization ⟨some ⟨none, some (JVal.jstr "hi")⟩, none⟩).2.1
    "hi" (by decide) (by decide) (by decide)

/-! ## Dispatcher (htmlTranslator.ts lines 98-243)

The units handed to the dispatch loops are the non-empty trimmed
paragraph texts (`tasks`, lines 136-142); a unit is identified by its
text.  The per-call outcome of `translateTextWithProvider` is abstracted
by an oracle.  Serial mode (one provider, lines 145-174) is a plain
fold; parallel mode (lines 175-221) is modelled further below by the
atomic segments of the cooperative worker loops. -/

/-- the batch outcome, mirroring the `TranslateResult` union of
htmlTranslator.ts (the title is omitted; a `failed`/`skipped` result
carries count 0): status is one of "translated", "partial", "skipped",
"failed". -/
structure TResult where
  status : String
  count : ℕ
  reason : String
deriving DecidableEq, Repr

/-- lines 224-242: the batch result computed from the final
translatedCount and errorReason (the empty reason string is falsy). -/
def dispatchOutcome (translatedCount : ℕ) (errorReason : String) : TResult :=
  if translatedCount = 0 ∧ errorReason ≠ "" then ⟨"failed", 0, errorReason⟩
  else if translatedCount = 0 then ⟨"skipped", 0, "未产生翻译内容"⟩
  else if errorReason ≠ "" then ⟨"partial", translatedCount, errorReason⟩
  else ⟨"translated", translatedCount, ""⟩

/-- the serial loop (lines 151-174): process the tasks in order starting
at call index i; a call returning a non-empty string inserts a
translation and counts the unit, an empty string is skipped
(`if (!translated) continue`), and the first thrown error breaks the
loop.  Returns (number of calls made, tasks translated in order,
errorReason — "" when no error occurred). -/
def serialLoop (oracle : ℕ → Except String String) : List String → ℕ → ℕ × List String × String
  | [], _ => (0, [], "")
  | t :: rest, i =>
    match oracle i with
    | Except.ok s =>
      let r := serialLoop oracle rest (i + 1)
      if s = "" then (r.1 + 1, r.2.1, r.2.2)
      else (r.1 + 1, t :: r.2.1, r.2.2)
    | Except.error m => (1, [], m)

/-- helper for C2, stated at an arbitrary starting call index for the
induction: if the first k calls from index i succeed with non-empty
strings and call i + k throws m, the loop makes k + 1 calls, translates
exactly the first k tasks, and reports m. -/
theorem serialLoop_first_error (oracle : ℕ → Except String String)
    (tasks : List String) (k : ℕ) (m : String) (i : ℕ)
    (hk : k < tasks.length)
    (hok : ∀ j, j < k → ∃ s, s ≠ "" ∧ oracle (i + j) = Except.ok s)
    (herr : oracle (i + k) = Except.error m) :
    serialLoop oracle tasks i = (k + 1, tasks.take k, m) := by
  induction tasks generalizing k i with
  | nil => exact absurd hk (by simp)
  | cons t rest ih =>
    cases k with
    | zero =>
      rw [Nat.add_zero] at herr
      simp only [serialLoop]
      rw [herr]
      simp
    | succ k =>
      obtain ⟨s, hs, hok0⟩ := hok 0 (Nat.succ_pos k)
      rw [Nat.add_zero] at hok0
      have hrec : serialLoop oracle rest (i + 1) = (k + 1, rest.take k, m) := by
        apply ih k (i + 1)
        · simpa using hk
        · intro j hj
          obtain ⟨s2, hs2, h2⟩ := hok (j + 1) (by omega)
          exact ⟨s2, hs2, by rw [show i + 1 + j = i + (j + 1) by omega]; exact h2⟩
        · rw [show i + 1 + k = i + (k + 1) by omega]
          exact herr
      simp only [serialLoop]
      rw [hok0, hrec]
      simp [hs]

/-- C2: in serial mode (the `providers.length <= 1` branch) units are
processed strictly in submission order; when the first k calls return
non-empty translations and call k throws, exactly the first k units are
translated and retained, the loop stops after k + 1 calls so no further
unit is attempted, and the batch result is partial with count k carrying
the error as reason.  The witness instantiates the claimed scenario
[u1, u2, u3] with the second call failing: exactly u1 is translated and
the result is partial with count 1. -/
theorem serial_stops_at_first_error (oracle : ℕ → Except String String)
    (tasks : List String) (k : ℕ) (m : String)
    (hk : k < tasks.length)
    (hok : ∀ j, j < k → ∃ s, s ≠ "" ∧ oracle j = Except.ok s)
    (herr : oracle k = Except.error m)
    (hm : m ≠ "") (hk0 : 0 < k) :
    serialLoop oracle tasks 0 = (k + 1, tasks.take k, m)
    ∧ (tasks.take k).length = k
    ∧ dispatchOutcome (tasks.take k).length m = ⟨"partial", k, m⟩ := by
  have h1 : serialLoop oracle tasks 0 = (k + 1, tasks.take k, m) := by
    apply serialLoop_first_error oracle tasks k m 0 hk
    · intro j hj
      simpa using hok j hj
    · simpa using herr
  have hlen : (tasks.take k).length = k := by
    rw [List.length_take]
    omega
  refine ⟨h1, hlen, ?_⟩
  rw [hlen]
  unfold dispatchOutcome
  rw [if_neg (fun hc => absurd hc.1 (by omega)), if_neg (by omega), if_pos hm]

/-- witness for C2: units [u1, u2, u3] and a provider whose second call
fails — exactly u1 is translated, only two calls are made, and the
batch result is partial with count 1. -/
theorem serial_stops_at_first_error_witness :
    serialLoop (fun i => if i = 1 then Except.error "boom" else Except.ok "译") ["u1", "u2", "u3"] 0
      = (2, ["u1"], "boom")
    ∧ dispatchOutcome 1 "boom" = ⟨"partial", 1, "boom"⟩ := by
  have h := serial_stops_at_first_error
    (fun i => if i = 1 then Except.error "boom" else Except.ok "译")
    ["u1", "u2", "u3"] 1 "boom" (by decide)
    (fun j hj => ⟨"译", by decide, by
      have hj0 : j = 0 := by omega
      rw [hj0]
      rfl⟩)
    (by simp) (by decide) (by decide)
  exact ⟨h.1, by simpa using h.2.2⟩

/-! ## Parallel dispatch (htmlTranslator.ts lines 175-221)

The JavaScript event loop interleaves the workers only at their `await`
points, so the atomic segments of a worker are:

* `loopTop` — from the top of `while (true)` to the start of the next
  call: check the aborted flag, `queue.shift()`, bump the provider's
  `total`, start `translateTextWithProvider` (lines 180-185).  Spawning
  the workers (`providers.map(... async ...)`) runs this first segment
  of every worker synchronously, in provider order.
* `deliver` — the synchronous continuation once worker i's pending call
  settles (lines 186-213): on a non-empty result insert the translation,
  bump the counters and run `loopTop` again (the success path continues
  to the next `queue.shift()` without suspending); on an error record
  the first error, bump `failed`, then either push the task back and
  retire this worker (`reassignOnFailure`) or set the batch `aborted`
  flag and retire.

A schedule is the list of workers whose pending responses settle, in
order; delivering to a worker that is not awaiting a response is a
no-op.  The oracle maps (worker index, per-worker call index) to the
call's outcome.  `attempts` and `errLog` are history variables recording
every popped task and every delivered error; they are written exactly
when the code pops a task / enters the catch block and are read by no
code path. -/

/-- one provider's `ProviderProgress` row (lines 37-44, 129-135). -/
structure WorkerProg where
  total : ℕ
  done : ℕ
  failed : ℕ
  error : Option String
deriving DecidableEq, Repr

/-- control state of one worker: at the loop top (only before spawning),
awaiting a response for a task, or returned. -/
inductive WPhase where
  | ready
  | waiting (task : String) (callIdx : ℕ)
  | retired
deriving DecidableEq, Repr

/-- global state of one parallel dispatch batch. -/
structure DState where
  queue : List String
  phases : List WPhase
  prog : List WorkerProg
  calls : List ℕ
  translatedUnits : List (String × ℕ)
  translatedCount : ℕ
  errorReason : String
  aborted : Bool
  attempts : List String
  errLog : List String
deriving DecidableEq, Repr

/-- worker i returns. -/
def retireW (i : ℕ) (s : DState) : DState :=
  { s with phases := s.phases.set i WPhase.retired }

/-- `providerProgress[index].total += 1` (line 184). -/
def bumpTotal (i : ℕ) (l : List WorkerProg) : List WorkerProg :=
  l.set i (let p := l.getD i ⟨0, 0, 0, none⟩; { p with total := p.total + 1 })

/-- `providerProgress[index].done += 1` (line 194). -/
def bumpDone (i : ℕ) (l : List WorkerProg) : List WorkerProg :=
  l.set i (let p := l.getD i ⟨0, 0, 0, none⟩; { p with done := p.done + 1 })

/-- `providerProgress[index].failed += 1; .error = reason` (lines 204-205). -/
def failWith (i : ℕ) (m : String) (l : List WorkerProg) : List WorkerProg :=
  l.set i (let p := l.getD i ⟨0, 0, 0, none⟩; { p with failed := p.failed + 1, error := some m })

/-- atomic segment from the top of the worker loop (lines 180-185). -/
def loopTop (i : ℕ) (s : DState) : DState :=
  if s.aborted then retireW i s
  else
    match s.queue with
    | [] => retireW i s
    | t :: rest =>
      { s with queue := rest,
               phases := s.phases.set i (WPhase.waiting t (s.calls.getD i 0)),
               prog := bumpTotal i s.prog,
               calls := s.calls.set i (s.calls.getD i 0 + 1),
               attempts := s.attempts ++ [t] }

/-- the success bookkeeping of lines 192-196: insert the translation,
bump the shared count, bump the provider's done row. -/
def successUpd (i : ℕ) (t : String) (s : DState) : DState :=
  { s with translatedUnits := s.translatedUnits ++ [(t, i)],
           translatedCount := s.translatedCount + 1,
           prog := bumpDone i s.prog }

/-- the catch bookkeeping of lines 198-206: keep the first error as the
shared errorReason, bump the provider's failed row and error field. -/
def errorUpd (i : ℕ) (m : String) (s : DState) : DState :=
  { s with errorReason := if s.errorReason = "" then m else s.errorReason,
           prog := failWith i m s.prog,
           errLog := s.errLog ++ [m] }

/-- worker i's continuation once its pending call for task t (its k-th
call) settles: lines 186-213 of the worker body. -/
def deliverResp (reassign : Bool) (oracle : ℕ → ℕ → Except String String)
    (i : ℕ) (t : String) (k : ℕ) (s : DState) : DState :=
  match oracle i k with
  | Except.ok str => loopTop i (if str = "" then s else successUpd i t s)
  | Except.error m =>
    let s1 := errorUpd i m s
    if reassign then retireW i { s1 with queue := s1.queue ++ [t] }
    else retireW i { s1 with aborted := true }

/-- atomic segment delivering worker i's pending response (lines
186-213), running through to the worker's next suspension or return; a
worker that is not awaiting a response is left unchanged. -/
def deliver (reassign : Bool) (oracle : ℕ → ℕ → Except String String)
    (i : ℕ) (s : DState) : DState :=
  match s.phases.getD i WPhase.retired with
  | WPhase.waiting t k => deliverResp reassign oracle i t k s
  | _ => s

/-- state before the workers are spawned: the shared queue holds all
tasks, every counter is zero. -/
def initialDState (tasks : List String) (n : ℕ) : DState :=
  ⟨tasks, List.replicate n WPhase.ready, List.replicate n ⟨0, 0, 0, none⟩,
    List.replicate n 0, [], 0, "", false, [], []⟩

/-- spawning the n workers (lines 178-216): each runs its first
`loopTop` synchronously, in provider order. -/
def spawnWorkers (tasks : List String) (n : ℕ) : DState :=
  (List.range n).foldl (fun s i => loopTop i s) (initialDState tasks n)

/-- continue a run from a state by delivering the scheduled responses. -/
def runFrom (reassign : Bool) (oracle : ℕ → ℕ → Except String String)
    (s : DState) (sched : List ℕ) : DState :=
  sched.foldl (fun s i => deliver reassign oracle i s) s

/-- a whole scheduled parallel run. -/
def runDispatch (reassign : Bool) (oracle : ℕ → ℕ → Except String String)
    (tasks : List String) (n : ℕ) (sched : List ℕ) : DState :=
  runFrom reassign oracle (spawnWorkers tasks n) sched

/-- lines 218-220: after `Promise.all`, blame a drained worker set when
reassignment left units queued and no error was recorded. -/
def finalErrorReason (reassign : Bool) (s : DState) : String :=
  if reassign ∧ s.queue ≠ [] ∧ s.errorReason = "" then "部分段落未完成，所有服务商均失败。"
  else s.errorReason

/-- the batch result of a parallel run (lines 224-242 applied to the
final counters). -/
def batchResult (reassign : Bool) (s : DState) : TResult :=
  dispatchOutcome s.translatedCount (finalErrorReason reassign s)

/-- `Promise.all` has resolved: every worker has returned. -/
def allRetired (s : DState) : Bool :=
  s.phases.all (fun p => p = WPhase.retired)

/-- the C3 scenario oracle: worker 0 (provider A) fails every call it
makes, worker 1 (provider B) always succeeds with a non-empty string. -/
def oracleC3 : ℕ → ℕ → Except String String :=
  fun i _ => if i = 0 then Except.error "provider A failed" else Except.ok "译文"

/-- the C3 scenario units. -/
def tasksC3 : List String := ["u1", "u2", "u3", "u4"]

/-- C3 fails as stated: in the scenario's most favourable schedule —
A's failure settles first, then B's responses — all 4 units do translate
via B and both workers retire, but the batch result is partial(4), not
translated(4): the catch block records A's error as `errorReason` even
when the unit is pushed back for reassignment, and any non-empty
`errorReason` forces the `partial` status. -/
theorem parallel_reassign_not_translated4 :
    batchResult true (runDispatch true oracleC3 tasksC3 2 [0, 1, 1, 1, 1])
      = ⟨"partial", 4, "provider A failed"⟩
    ∧ allRetired (runDispatch true oracleC3 tasksC3 2 [0, 1, 1, 1, 1]) = true
    ∧ (batchResult true (runDispatch true oracleC3 tasksC3 2 [0, 1, 1, 1, 1])).status
        ≠ "translated" := by
  decide

/-- C3 as amended: with reassignOnFailure = true, 2 providers, 4 units,
A failing its first call and B always succeeding — after A's failure the
failed unit u1 is pushed back onto the shared queue and only A's worker
retires (B is still awaiting its first response).  If A's failure
settles before B drains the queue, B translates all 4 units (A's row
shows 1 attempt, 1 failure, 0 done; B's 4 done) and the batch result is
partial with count 4 carrying A's error as reason.  If B drains the
queue and retires before A's failure settles, the pushed-back unit is
never reattempted: exactly 3 units translate and the result is partial
with count 3. -/
theorem parallel_reassign_outcomes :
    (runDispatch true oracleC3 tasksC3 2 [0]).queue = ["u3", "u4", "u1"]
    ∧ (runDispatch true oracleC3 tasksC3 2 [0]).phases
        = [WPhase.retired, WPhase.waiting "u2" 0]
    ∧ (runDispatch true oracleC3 tasksC3 2 [0, 1, 1, 1, 1]).translatedUnits
        = [("u2", 1), ("u3", 1), ("u4", 1), ("u1", 1)]
    ∧ (runDispatch true oracleC3 tasksC3 2 [0, 1, 1, 1, 1]).prog
        = [⟨1, 0, 1, some "provider A failed"⟩, ⟨4, 4, 0, none⟩]
    ∧ allRetired (runDispatch true oracleC3 tasksC3 2 [0, 1, 1, 1, 1]) = true
    ∧ batchResult true (runDispatch true oracleC3 tasksC3 2 [0, 1, 1, 1, 1])
        = ⟨"partial", 4, "provider A failed"⟩
    ∧ allRetired (runDispatch true oracleC3 tasksC3 2 [1, 1, 1, 0]) = true
    ∧ (runDispatch true oracleC3 tasksC3 2 [1, 1, 1, 0]).queue = ["u1"]
    ∧ (runDispatch true oracleC3 tasksC3 2 [1, 1, 1, 0]).translatedUnits
        = [("u2", 1), ("u3", 1), ("u4", 1)]
    ∧ batchResult true (runDispatch true oracleC3 tasksC3 2 [1, 1, 1, 0])
        = ⟨"partial", 3, "provider A failed"⟩ := by
  decide

/-- the batch invariant behind C4 (reassignOnFailure = false): the
popped tasks followed by the queued tasks are exactly the submitted
tasks (nothing is ever pushed back), the aborted flag is set exactly
when some error has been delivered, and errorReason is the first
delivered error (non-empty exactly when one exists). -/
def DispatchInv (tasks : List String) (s : DState) : Prop :=
  s.attempts ++ s.queue = tasks
  ∧ (s.aborted = true ↔ s.errLog ≠ [])
  ∧ s.errorReason = s.errLog.headD ""
  ∧ (s.errorReason = "" ↔ s.errLog = [])

theorem loopTop_append (i : ℕ) (s : DState) :
    (loopTop i s).attempts ++ (loopTop i s).queue = s.attempts ++ s.queue := by
  unfold loopTop retireW
  by_cases hab : s.aborted = true
  · rw [if_pos hab]
  · rw [if_neg hab]
    cases hq : s.queue with
    | nil => rfl
    | cons t rest => simp

theorem loopTop_err_fields (i : ℕ) (s : DState) :
    (loopTop i s).errLog = s.errLog ∧ (loopTop i s).errorReason = s.errorReason
    ∧ (loopTop i s).aborted = s.aborted := by
  unfold loopTop retireW
  by_cases hab : s.aborted = true
  · rw [if_pos hab]
    exact ⟨rfl, rfl, rfl⟩
  · rw [if_neg hab]
    cases hq : s.queue with
    | nil => exact ⟨rfl, rfl, rfl⟩
    | cons t rest => exact ⟨rfl, rfl, rfl⟩

theorem loopTop_inv (tasks : List String) (i : ℕ) (s : DState)
    (h : DispatchInv tasks s) : DispatchInv tasks (loopTop i s) := by
  obtain ⟨h1, h2, h3, h4⟩ := h
  obtain ⟨e1, e2, e3⟩ := loopTop_err_fields i s
  exact ⟨by rw [loopTop_append]; exact h1,
    by rw [e3, e1]; exact h2,
    by rw [e2, e1]; exact h3,
    by rw [e2, e1]; exact h4⟩

theorem headD_append_ne_nil {l : List String} (m d : String) (h : l ≠ []) :
    (l ++ [m]).headD d = l.headD d := by
  cases l with
  | nil => exact absurd rfl h
  | cons a l => rfl

theorem deliver_ready (r : Bool) (oracle : ℕ → ℕ → Except String String)
    (i : ℕ) (s : DState) (hph : s.phases.getD i WPhase.retired = WPhase.ready) :
    deliver r oracle i s = s := by
  unfold deliver
  rw [hph]

theorem deliver_retired (r : Bool) (oracle : ℕ → ℕ → Except String String)
    (i : ℕ) (s : DState) (hph : s.phases.getD i WPhase.retired = WPhase.retired) :
    deliver r oracle i s = s := by
  unfold deliver
  rw [hph]

theorem deliver_waiting (r : Bool) (oracle : ℕ → ℕ → Except String String)
    (i : ℕ) (t : String) (k : ℕ) (s : DState)
    (hph : s.phases.getD i WPhase.retired = WPhase.waiting t k) :
    deliver r oracle i s = deliverResp r oracle i t k s := by
  unfold deliver
  rw [hph]

theorem deliverResp_ok (r : Bool) (oracle : ℕ → ℕ → Except String String)
    (i : ℕ) (t : String) (k : ℕ) (s : DState) (str : String)
    (hok : oracle i k = Except.ok str) :
    deliverResp r oracle i t k s = loopTop i (if str = "" then s else successUpd i t s) := by
  unfold deliverResp
  rw [hok]

theorem deliverResp_err_false (oracle : ℕ → ℕ → Except String String)
    (i : ℕ) (t : String) (k : ℕ) (s : DState) (m : String)
    (hok : oracle i k = Except.error m) :
    deliverResp false oracle i t k s = retireW i { errorUpd i m s with aborted := true } := by
  unfold deliverResp
  rw [hok]
  rfl

theorem deliverResp_err_true (oracle : ℕ → ℕ → Except String String)
    (i : ℕ) (t : String) (k : ℕ) (s : DState) (m : String)
    (hok : oracle i k = Except.error m) :
    deliverResp true oracle i t k s
      = retireW i { errorUpd i m s with queue := (errorUpd i m s).queue ++ [t] } := by
  unfold deliverResp
  rw [hok]
  rfl

theorem deliver_false_inv (oracle : ℕ → ℕ → Except String String)
    (horacle : ∀ i k m, oracle i k = Except.error m → m ≠ "")
    (tasks : List String) (i : ℕ) (s : DState)
    (h : DispatchInv tasks s) : DispatchInv tasks (deliver false oracle i s) := by
  obtain ⟨h1, h2, h3, h4⟩ := h
  cases hph : s.phases.getD i WPhase.retired with
  | ready =>
    rw [deliver_ready false oracle i s hph]
    exact ⟨h1, h2, h3, h4⟩
  | retired =>
    rw [deliver_retired false oracle i s hph]
    exact ⟨h1, h2, h3, h4⟩
  | waiting t k =>
    rw [deliver_waiting false oracle i t k s hph]
    cases hok : oracle i k with
    | ok str =>
      rw [deliverResp_ok false oracle i t k s str hok]
      have hmid : DispatchInv tasks (if str = "" then s else successUpd i t s) := by
        split
        · exact ⟨h1, h2, h3, h4⟩
        · exact ⟨h1, h2, h3, h4⟩
      exact loopTop_inv tasks i (if str = "" then s else successUpd i t s) hmid
    | error m =>
      rw [deliverResp_err_false oracle i t k s m hok]
      have hm : m ≠ "" := horacle i k m hok
      refine ⟨?_, ?_, ?_, ?_⟩
      · simpa [retireW, errorUpd] using h1
      · simp [retireW, errorUpd]
      · simp only [retireW, errorUpd]
        by_cases hr : s.errorReason = ""
        · have hlog : s.errLog = [] := h4.mp hr
          simp [hr, hlog]
        · have hlog : s.errLog ≠ [] := fun hc => hr (h4.mpr hc)
          simp only [if_neg hr]
          rw [headD_append_ne_nil m "" hlog]
          exact h3
      · simp only [retireW, errorUpd]
        by_cases hr : s.errorReason = ""
        · simp [hr, hm]
        · simp [hr]

theorem runFrom_false_inv (oracle : ℕ → ℕ → Except String String)
    (horacle : ∀ i k m, oracle i k = Except.error m → m ≠ "")
    (tasks : List String) (sched : List ℕ) (s : DState)
    (h : DispatchInv tasks s) : DispatchInv tasks (runFrom false oracle s sched) := by
  induction sched generalizing s with
  | nil => exact h
  | cons a sched ih =>
    simp only [runFrom, List.foldl]
    exact ih (deliver false oracle a s) (deliver_false_inv oracle horacle tasks a s h)

theorem spawnWorkers_inv (tasks : List String) (n : ℕ) :
    DispatchInv tasks (spawnWorkers tasks n) := by
  have base : DispatchInv tasks (initialDState tasks n) := by
    refine ⟨by simp [initialDState], by simp [initialDState], rfl, by simp [initialDState]⟩
  have hfold : ∀ l : List ℕ, ∀ s : DState, DispatchInv tasks s →
      DispatchInv tasks (l.foldl (fun s i => loopTop i s) s) := by
    intro l
    induction l with
    | nil => intro s hs; exact hs
    | cons a l ih =>
      intro s hs
      simp only [List.foldl]
      exact ih (loopTop a s) (loopTop_inv tasks a s hs)
  exact hfold (List.range n) (initialDState tasks n) base

theorem deliver_frozen (r : Bool) (oracle : ℕ → ℕ → Except String String)
    (i : ℕ) (s : DState) (h : s.aborted = true) :
    (deliver r oracle i s).attempts = s.attempts
    ∧ (deliver r oracle i s).aborted = true := by
  cases hph : s.phases.getD i WPhase.retired with
  | ready =>
    rw [deliver_ready r oracle i s hph]
    exact ⟨rfl, h⟩
  | retired =>
    rw [deliver_retired r oracle i s hph]
    exact ⟨rfl, h⟩
  | waiting t k =>
    rw [deliver_waiting r oracle i t k s hph]
    cases hok : oracle i k with
    | ok str =>
      rw [deliverResp_ok r oracle i t k s str hok]
      have hab : (if str = "" then s else successUpd i t s).aborted = true := by
        split
        · exact h
        · exact h
      have hatt : (if str = "" then s else successUpd i t s).attempts = s.attempts := by
        split
        · rfl
        · rfl
      have hlt : loopTop i (if str = "" then s else successUpd i t s)
          = retireW i (if str = "" then s else successUpd i t s) := by
        unfold loopTop
        rw [if_pos hab]
      rw [hlt]
      exact ⟨hatt, hab⟩
    | error m =>
      cases r with
      | true =>
        rw [deliverResp_err_true oracle i t k s m hok]
        exact ⟨rfl, h⟩
      | false =>
        rw [deliverResp_err_false oracle i t k s m hok]
        exact ⟨rfl, rfl⟩

theorem runFrom_frozen (r : Bool) (oracle : ℕ → ℕ → Except String String)
    (post : List ℕ) (s : DState) (h : s.aborted = true) :
    (runFrom r oracle s post).attempts = s.attempts := by
  induction post generalizing s with
  | nil => rfl
  | cons a post ih =>
    simp only [runFrom, List.foldl]
    obtain ⟨ha, hb⟩ := deliver_frozen r oracle a s h
    have := ih (deliver r oracle a s) hb
    simp only [runFrom] at this
    rw [this, ha]

/-- the reason field of the results that carry one. -/
def resultReason (r : TResult) : Option String :=
  if r.status = "failed" ∨ r.status = "partial" then some r.reason else none

theorem resultReason_dispatchOutcome (c : ℕ) (er : String) (her : er ≠ "") :
    resultReason (dispatchOutcome c er) = some er := by
  have h1 : dispatchOutcome c er
      = if c = 0 then ⟨"failed", 0, er⟩ else ⟨"partial", c, er⟩ := by
    unfold dispatchOutcome
    by_cases hc : c = 0
    · rw [if_pos ⟨hc, her⟩, if_pos hc]
    · rw [if_neg (fun hx => hc hx.1), if_neg hc, if_pos her, if_neg hc]
  rw [h1]
  by_cases hc : c = 0
  · rw [if_pos hc]
    simp [resultReason]
  · rw [if_neg hc]
    simp [resultReason]

/-- C4: with reassignOnFailure = false, for every oracle (with the
error messages the code would produce, which are non-empty), every task
list without duplicates, every worker count and every delivery schedule:
no unit is ever attempted twice and no popped unit is ever pushed back
(the popped tasks followed by the queued tasks are exactly the submitted
tasks); the batch aborted flag is set exactly when some call has failed;
the retained errorReason is the first delivered error, and it is the
reason of the final partial/failed batch result; and once the aborted
flag is set, no further unit is ever popped no matter how the remaining
deliveries are scheduled — every worker observes the flag and stops. -/
theorem parallel_abort_no_reassign (oracle : ℕ → ℕ → Except String String)
    (tasks : List String) (n : ℕ) (sched : List ℕ)
    (hnd : tasks.Nodup)
    (horacle : ∀ i k m, oracle i k = Except.error m → m ≠ "") :
    (runDispatch false oracle tasks n sched).attempts.Nodup
    ∧ (runDispatch false oracle tasks n sched).attempts
        ++ (runDispatch false oracle tasks n sched).queue = tasks
    ∧ ((runDispatch false oracle tasks n sched).aborted = true
        ↔ (runDispatch false oracle tasks n sched).errLog ≠ [])
    ∧ (runDispatch false oracle tasks n sched).errorReason
        = (runDispatch false oracle tasks n sched).errLog.headD ""
    ∧ ((runDispatch false oracle tasks n sched).errLog ≠ [] →
        resultReason (batchResult false (runDispatch false oracle tasks n sched))
          = some (runDispatch false oracle tasks n sched).errorReason)
    ∧ ∀ post, (runDispatch false oracle tasks n sched).aborted = true →
        (runFrom false oracle (runDispatch false oracle tasks n sched) post).attempts
          = (runDispatch false oracle tasks n sched).attempts := by
  have hinv : DispatchInv tasks (runDispatch false oracle tasks n sched) :=
    runFrom_false_inv oracle horacle tasks sched (spawnWorkers tasks n)
      (spawnWorkers_inv tasks n)
  obtain ⟨h1, h2, h3, h4⟩ := hinv
  have hndatt : (runDispatch false oracle tasks n sched).attempts.Nodup := by
    have hsub := List.sublist_append_left
      (runDispatch false oracle tasks n sched).attempts
      (runDispatch false oracle tasks n sched).queue
    rw [h1] at hsub
    exact hnd.sublist hsub
  refine ⟨hndatt, h1, h2, h3, fun hlog => ?_, fun post h => runFrom_frozen false oracle post _ h⟩
  have hr : (runDispatch false oracle tasks n sched).errorReason ≠ "" :=
    fun hc => hlog (h4.mp hc)
  have hfinal : finalErrorReason false (runDispatch false oracle tasks n sched)
      = (runDispatch false oracle tasks n sched).errorReason := by
    simp [finalErrorReason]
  unfold batchResult
  rw [hfinal]
  exact resultReason_dispatchOutcome _ _ hr

/-- witness for C4: tasks [a, b, c], 2 workers, worker 0 failing and
worker 1 succeeding, schedule [0, 1, 1, 1]: the popped units and the
queue still partition the tasks. -/
theorem parallel_abort_no_reassign_witness :
    (runDispatch false (fun i _ => if i = 0 then Except.error "X" else Except.ok "t")
        ["a", "b", "c"] 2 [0, 1, 1, 1]).attempts
      ++ (runDispatch false (fun i _ => if i = 0 then Except.error "X" else Except.ok "t")
        ["a", "b", "c"] 2 [0, 1, 1, 1]).queue = ["a", "b", "c"] :=
  (parallel_abort_no_reassign
    (fun i _ => if i = 0 then Except.error "X" else Except.ok "t")
    ["a", "b", "c"] 2 [0, 1, 1, 1] (by decide)
    (fun i k m h => by
      by_cases hi : i = 0
      · simp [hi] at h
        rw [← h]
        decide
      · simp [hi] at h)).2.1

end ArxivReader
